import Mathlib

/-!
Verification development for the Python_Attendence repository: a shallow
embedding in Lean 4 of the attendance, leave, QR and notification logic of
`app/services` and `app/repositories`, together with theorems settling the
specification claims about them.

Conventions of the embedding:
* Python `datetime.date` values are `PyDate` triples (year, month, day);
  ordering and subtraction go through `PyDate.ord`, the proleptic Gregorian
  ordinal exactly as CPython's `date.toordinal` computes it.
* Timestamps (`datetime.datetime`) are seconds counted from an arbitrary
  epoch (`Nat`); a time-of-day is its value modulo 86400 seconds.
* Database tables are Lean lists; SQLAlchemy `first()` is `List.find?`,
  `all()` with a filter is `List.filter`.
* Raised exceptions are an `Except Err` result; `Err` distinguishes the
  repository's `ValidationError` and `BusinessLogicError` from lower-level
  failures (database errors, Python `NameError`).
* External collaborators (geodesic distance, SMTP, the database insert used
  for notifications) are abstracted by an `Env` record of oracles, matching
  the spec's treatment of them as external interfaces.
-/

/-! ## Calendar: CPython's `date.toordinal`

`datetime.date` comparison and subtraction are defined through the proleptic
Gregorian ordinal; these definitions reproduce CPython's `_ymd2ord`. -/

def isLeapYear (y : Nat) : Bool :=
  y % 4 == 0 && (y % 100 != 0 || y % 400 == 0)

def daysBeforeYear (y : Nat) : Nat :=
  let p := y - 1
  365 * p + p / 4 - p / 100 + p / 400

/-- Cumulative days before month `m` (1-based) in a non-leap year. -/
def daysBeforeMonthCommon (m : Nat) : Nat :=
  match m with
  | 1 => 0 | 2 => 31 | 3 => 59 | 4 => 90 | 5 => 120 | 6 => 151
  | 7 => 181 | 8 => 212 | 9 => 243 | 10 => 273 | 11 => 304 | 12 => 334
  | _ => 365

def daysBeforeMonth (y m : Nat) : Nat :=
  daysBeforeMonthCommon m + (if 2 < m && isLeapYear y then 1 else 0)

/-- A Python `datetime.date`. -/
structure PyDate where
  year : Nat
  month : Nat
  day : Nat
deriving DecidableEq, Repr

/-- `date.toordinal()`: day 1 is 0001-01-01. -/
def PyDate.ord (d : PyDate) : Nat :=
  daysBeforeYear d.year + daysBeforeMonth d.year d.month + d.day

/-- `date` comparison (`<=`), via ordinals as in CPython. -/
def PyDate.dle (a b : PyDate) : Bool := a.ord ≤ b.ord

/-- `date` comparison (`<`). -/
def PyDate.dlt (a b : PyDate) : Bool := a.ord < b.ord

/-! ## Data model

The `Employee` and `LeaveRequest` SQLAlchemy models and the
`ValidationError`/`BusinessLogicError` exception classes are imported by the
provided sources (`app/services/*.py`, `app/repositories/*.py`) but their
defining modules are not among the provided files; their fields and
enumerations below are modelled from the spec's data-model section and from
every use site in the provided code. -/

inductive AttendanceStatus
  | EARLY | ON_TIME | LATE | ABSENT | PLANNED_ABSENCE | ON_LEAVE
deriving DecidableEq, Repr

inductive LeaveStatus
  | PENDING | APPROVED | REJECTED
deriving DecidableEq, Repr

inductive LeaveType
  | SICK | VACATION | PERSONAL | EMERGENCY | MATERNITY | PATERNITY
deriving DecidableEq, Repr

inductive EmployeeRole
  | EMPLOYEE | SUPERVISOR | ADMIN
deriving DecidableEq, Repr

/-- Modelled from the spec: the `Employee` model (module not provided);
identity, role and active flag, per the data-model section. -/
structure Employee where
  id : Nat
  role : EmployeeRole
  is_active : Bool
deriving DecidableEq, Repr

/-- The `Attendance` model: one row per (employee, date), optional check-in
and check-out timestamps, a status, optional coordinates and QR payload. -/
structure Attendance where
  id : Nat
  employee_id : Nat
  date : PyDate
  check_in_time : Option Nat
  check_out_time : Option Nat
  status : AttendanceStatus
  latitude : Option Int
  longitude : Option Int
  qr_code_data : Option String
deriving DecidableEq, Repr

/-- Modelled from the spec: the `LeaveRequest` model (module not provided);
fields per the data-model section and the use sites in
`leave_repository.py` / `leave_service.py`. -/
structure LeaveRequest where
  id : Nat
  employee_id : Nat
  leave_type : LeaveType
  start_date : PyDate
  end_date : PyDate
  reason : String
  status : LeaveStatus
  approved_by : Option Nat
  approved_at : Option Nat
  rejection_reason : Option String
deriving DecidableEq, Repr

/-- Modelled from the spec: `duration_days` of the `LeaveRequest` model
(module not provided): the inclusive day count `(end - start).days + 1`. -/
def LeaveRequest.duration_days (r : LeaveRequest) : Int :=
  (r.end_date.ord : Int) - r.start_date.ord + 1

/-- The `QRCode` model (`app/models/qr_code.py`): unique code string, active
flag, creation timestamp (seconds). Location fields are irrelevant to the
validation logic and omitted. -/
structure QRCode where
  id : Nat
  code : String
  is_active : Bool
  created_at : Nat
deriving DecidableEq, Repr

/-- Outcomes raised by the services. `ValidationError` and
`BusinessLogicError` are the repository's own exception classes (modelled
from the spec's error taxonomy; their defining module is not provided);
`dbError` stands for an exception raised by a SQLAlchemy `add`/`commit`
call, and `nameError` for a Python `NameError`. -/
inductive Err
  | validationErr (msg : String)
  | businessLogicErr (msg : String)
  | dbError
  | nameError
  | valueError
deriving DecidableEq, Repr

/-- The database state: one list per table, plus a source of fresh row ids
standing for the `uuid4` primary-key default. -/
structure DB where
  employees : List Employee
  attendance : List Attendance
  leaves : List LeaveRequest
  qrcodes : List QRCode
  nextId : Nat
deriving DecidableEq, Repr

/-- External collaborators, abstracted as the spec's external interfaces:
`withinRadius lat lon` is the outcome of
`geodesic(office, (lat, lon)).meters <= MAX_DISTANCE_METERS`;
`notifInsertFails` says whether the database insert performed by
`NotificationService.create_notification` raises; `emailFails` says whether
the SMTP send inside `send_email_notification` raises (that one is caught
there and turned into `False`). -/
structure Env where
  withinRadius : Int → Int → Bool
  notifInsertFails : Bool
  emailFails : Bool

/-! ## Settings (`app/config/settings.py`) -/

def workStartHour : Nat := 8
def workStartMinute : Nat := 0
def lateThresholdMinutes : Nat := 20
def qrCodeExpiryHours : Nat := 24

/-! ## QR validation (`app/services/qr_service.py`) -/

/-- `QRService.validate_qr_code`: the query filters on `code == c` and
`is_active == True` and takes the first row; absent → `False`; otherwise
`False` iff `utcnow() > created_at + timedelta(hours=QR_CODE_EXPIRY_HOURS)`.
The function only reads, so it returns the table unchanged. -/
def validate_qr_code (qrcodes : List QRCode) (utcNow : Nat) (c : String) :
    Bool × List QRCode :=
  match qrcodes.find? (fun q => q.code == c && q.is_active) with
  | none => (false, qrcodes)
  | some q =>
      if q.created_at + qrCodeExpiryHours * 3600 < utcNow then (false, qrcodes)
      else (true, qrcodes)

/-! ## Status classification (`AttendanceService.determine_attendance_status`) -/

/-- Python's `datetime.time(hour, minute)` constructor: `ValueError`
(here `none`) unless `hour <= 23` and `minute <= 59`; otherwise the
time-of-day in seconds. -/
def mkTime (hour minute : Nat) : Option Nat :=
  if hour ≤ 23 && minute ≤ 59 then some (hour * 3600 + minute * 60) else none

/-- `determine_attendance_status`, parameterised by the configured
work-start (hour, minute) and grace minutes; `tod` is the check-in
time-of-day in seconds. The `time(work_start.hour, work_start.minute +
LATE_THRESHOLD_MINUTES)` construction is only evaluated in the `elif`
branch, i.e. when the check-in is not before work-start; `none` models the
`ValueError` it raises when the minute overflows. -/
def determineAttendanceStatusCfg (wsHour wsMinute grace tod : Nat) :
    Option AttendanceStatus :=
  if tod < wsHour * 3600 + wsMinute * 60 then
    some AttendanceStatus.EARLY
  else
    match mkTime wsHour (wsMinute + grace) with
    | none => none
    | some cutoff =>
        if tod ≤ cutoff then some AttendanceStatus.ON_TIME
        else some AttendanceStatus.LATE

/-- `determine_attendance_status` at the configured defaults
(`WORK_START_TIME = "08:00"`, `LATE_THRESHOLD_MINUTES = 20`). -/
def determine_attendance_status (tod : Nat) : Option AttendanceStatus :=
  determineAttendanceStatusCfg workStartHour workStartMinute
    lateThresholdMinutes tod

/-! ## Notification dispatch (`app/services/notification_service.py`)

No claim inspects the contents of a stored notification, so the dispatch
functions are embedded by their control flow and failure behaviour: the
database insert done by `create_notification` (`db.add`/`db.commit`, no
`try`/`except` around it) either succeeds or raises, and the SMTP send in
`send_email_notification` is wrapped in `try`/`except` and returns a
boolean, never raising. -/

/-- `NotificationService.create_notification`: inserts a `Notification` row;
any database exception propagates to the caller. -/
def create_notification (env : Env) : Except Err Unit :=
  if env.notifInsertFails then Except.error Err.dbError else Except.ok ()

/-- `NotificationService.send_email_notification`: the whole body is inside
`try`/`except`; an SMTP failure is caught and `False` returned. -/
def send_email_notification (env : Env) : Bool :=
  if env.emailFails then false else true

/-- `NotificationService.send_late_arrival_notification`: looks up the
employee (returning silently if absent), then `create_notification` (which
may raise) and `send_email_notification` (which never raises). -/
def send_late_arrival_notification (env : Env) (db : DB) (eid : Nat) :
    Except Err Unit :=
  match db.employees.find? (fun e => e.id == eid) with
  | none => Except.ok ()
  | some _ =>
      match create_notification env with
      | Except.error e => Except.error e
      | Except.ok _ =>
          let _ := send_email_notification env
          Except.ok ()

/-- `EmployeeRepository.get_supervisors`. -/
def get_supervisors (emps : List Employee) : List Employee :=
  emps.filter (fun e =>
    (e.role == EmployeeRole.SUPERVISOR || e.role == EmployeeRole.ADMIN) &&
    e.is_active)

/-- `NotificationService.send_leave_request_notification`: looks up the
request and its employee (returning silently if either is absent), then for
each supervisor runs `create_notification` and `send_email_notification`. -/
def send_leave_request_notification (env : Env) (db : DB) (rid : Nat) :
    Except Err Unit :=
  match db.leaves.find? (fun r => r.id == rid) with
  | none => Except.ok ()
  | some r =>
      match db.employees.find? (fun e => e.id == r.employee_id) with
      | none => Except.ok ()
      | some _ =>
          (get_supervisors db.employees).foldlM
            (fun _ _ =>
              match create_notification env with
              | Except.error e => Except.error e
              | Except.ok _ =>
                  let _ := send_email_notification env
                  Except.ok ()) ()

/-- `NotificationService.send_leave_approval_notification` (the rejection
variant has the same control flow): request and employee lookups, then one
`create_notification` and one `send_email_notification`. -/
def send_leave_approval_notification (env : Env) (db : DB) (rid : Nat) :
    Except Err Unit :=
  match db.leaves.find? (fun r => r.id == rid) with
  | none => Except.ok ()
  | some r =>
      match db.employees.find? (fun e => e.id == r.employee_id) with
      | none => Except.ok ()
      | some _ =>
          match create_notification env with
          | Except.error e => Except.error e
          | Except.ok _ =>
              let _ := send_email_notification env
              Except.ok ()

/-! ## Attendance repository (`app/repositories/attendance_repository.py`) -/

/-- `AttendanceRepository.get_by_employee_and_date`. -/
def get_by_employee_and_date (att : List Attendance) (eid : Nat)
    (d : PyDate) : Option Attendance :=
  att.find? (fun a => a.employee_id == eid && a.date == d)

/-- `AttendanceRepository.get_absent_employees_today`: ids of attendance
rows dated `date.today()` form the `present` subquery; the result is every
active employee whose id is not among them. Note the query is pinned to
today's date, not to any target date a caller may hold. -/
def get_absent_employees_today (db : DB) (today : PyDate) : List Nat :=
  ((db.employees.filter (fun e =>
      e.is_active &&
      !(db.attendance.any (fun a =>
          a.date == today && a.employee_id == e.id)))).map
    (fun e => e.id))

/-! ## Leave repository (`app/repositories/leave_repository.py`) -/

/-- `LeaveRepository.check_leave_conflict`: PENDING or APPROVED rows of the
employee satisfying the three-disjunct overlap test, optionally excluding a
request id. -/
def check_leave_conflict (leaves : List LeaveRequest) (eid : Nat)
    (s e : PyDate) (excludeId : Option Nat) : List LeaveRequest :=
  let q := leaves.filter (fun r =>
    r.employee_id == eid &&
    (r.status == LeaveStatus.PENDING || r.status == LeaveStatus.APPROVED) &&
    ((r.start_date.dle s && s.dle r.end_date) ||
     (r.start_date.dle e && e.dle r.end_date) ||
     (s.dle r.start_date && r.end_date.dle e)))
  match excludeId with
  | some i => q.filter (fun r => r.id != i)
  | none => q

/-- `LeaveRepository.get_approved_leaves_in_period`: APPROVED rows
satisfying the same three-disjunct overlap test against `[s, e]`, then an
optional employee filter. -/
def get_approved_leaves_in_period (leaves : List LeaveRequest)
    (s e : PyDate) (eid : Option Nat) : List LeaveRequest :=
  let base := leaves.filter (fun r =>
    r.status == LeaveStatus.APPROVED &&
    ((r.start_date.dle s && s.dle r.end_date) ||
     (r.start_date.dle e && e.dle r.end_date) ||
     (s.dle r.start_date && r.end_date.dle e)))
  match eid with
  | some i => base.filter (fun r => r.employee_id == i)
  | none => base

/-- Per-type annual allowances hard-coded in
`LeaveRepository.get_leave_balance`. -/
def leaveAllowance : LeaveType → Int
  | LeaveType.SICK => 10
  | LeaveType.VACATION => 21
  | LeaveType.PERSONAL => 5
  | LeaveType.EMERGENCY => 3
  | LeaveType.MATERNITY => 90
  | LeaveType.PATERNITY => 15

/-- One entry of the dict returned by `get_leave_balance`. -/
structure LeaveBalance where
  allowance : Int
  taken : Int
  remaining : Int
deriving DecidableEq, Repr

/-- `LeaveRepository.get_leave_balance`, at one leave type: sums
`duration_days` over the employee's APPROVED requests lying fully inside
the calendar year (`start_date >= Jan 1` and `end_date <= Dec 31`), and
clamps the remainder with `max(0, allowance - taken)`. -/
def get_leave_balance (leaves : List LeaveRequest) (eid : Nat) (year : Nat)
    (t : LeaveType) : LeaveBalance :=
  let startD := (PyDate.mk year 1 1).ord
  let endD := (PyDate.mk year 12 31).ord
  let approved := leaves.filter (fun r =>
    r.employee_id == eid && r.status == LeaveStatus.APPROVED &&
    decide (startD ≤ r.start_date.ord) && decide (r.end_date.ord ≤ endD))
  let taken := (approved.filter (fun r => r.leave_type == t)).foldl
    (fun acc r => acc + r.duration_days) 0
  LeaveBalance.mk (leaveAllowance t) taken (max 0 (leaveAllowance t - taken))

/-- `LeaveRepository.approve_request`: fetch by id; `None` stays `None`; on
a PENDING row the body executes `datetime.utcnow()`, but `leave_repository.py`
imports only `date` from `datetime`, so the name `datetime` is unbound and
Python raises `NameError` before the commit; a non-PENDING row is returned
unchanged. -/
def approve_request (leaves : List LeaveRequest) (request_id : Nat) :
    Except Err (Option LeaveRequest × List LeaveRequest) :=
  match leaves.find? (fun r => r.id == request_id) with
  | none => Except.ok (none, leaves)
  | some r =>
      if r.status == LeaveStatus.PENDING then Except.error Err.nameError
      else Except.ok (some r, leaves)

/-- `LeaveRepository.reject_request`: identical control flow to
`approve_request`, including the unbound `datetime.utcnow()` on the
PENDING branch. -/
def reject_request (leaves : List LeaveRequest) (request_id : Nat) :
    Except Err (Option LeaveRequest × List LeaveRequest) :=
  match leaves.find? (fun r => r.id == request_id) with
  | none => Except.ok (none, leaves)
  | some r =>
      if r.status == LeaveStatus.PENDING then Except.error Err.nameError
      else Except.ok (some r, leaves)

/-! ## Attendance service (`app/services/attendance_service.py`) -/

/-- `AttendanceService.check_in`: duplicate-check-in guard, geofence
validation, optional QR validation, status classification on the current
wall-clock time (`now` is a timestamp in seconds; its time-of-day is
`now % 86400`, and `qrUtcNow` is the UTC clock the QR validator reads),
record update-or-create, and — when the status is LATE — the late-arrival
notification, invoked with no exception handler around it. -/
def check_in (env : Env) (db : DB) (today : PyDate) (now qrUtcNow : Nat)
    (eid : Nat) (lat lon : Int) (qr : Option String) :
    Except Err (Attendance × DB) :=
  let existing := get_by_employee_and_date db.attendance eid today
  if (match existing with
      | some a => a.check_in_time.isSome
      | none => false) then
    Except.error (Err.businessLogicErr "Already checked in today")
  else if !(env.withinRadius lat lon) then
    Except.error (Err.validationErr "You are not within the allowed office area")
  else if (match qr with
      | some c => !(validate_qr_code db.qrcodes qrUtcNow c).1
      | none => false) then
    Except.error (Err.validationErr "Invalid QR code")
  else
    match determine_attendance_status (now % 86400) with
    | none => Except.error Err.valueError
    | some status =>
        let (att, db') :=
          match existing with
          | some a =>
              let a' := { a with
                check_in_time := some now
                status := status
                latitude := some lat
                longitude := some lon
                qr_code_data := qr }
              (a', { db with attendance :=
                db.attendance.map (fun x => if x.id == a.id then a' else x) })
          | none =>
              let a' : Attendance :=
                Attendance.mk db.nextId eid today (some now) none status
                  (some lat) (some lon) qr
              (a', { db with
                attendance := db.attendance ++ [a']
                nextId := db.nextId + 1 })
        if status == AttendanceStatus.LATE then
          match send_late_arrival_notification env db' eid with
          | Except.error e => Except.error e
          | Except.ok _ => Except.ok (att, db')
        else Except.ok (att, db')

/-- `AttendanceService.check_out`: requires a record for today (any record
— the guard is `if not attendance`, not a check on `check_in_time`), then
no prior check-out, then geofence and optional QR validation, then sets the
check-out timestamp. -/
def check_out (env : Env) (db : DB) (today : PyDate) (now qrUtcNow : Nat)
    (eid : Nat) (lat lon : Int) (qr : Option String) :
    Except Err (Attendance × DB) :=
  match get_by_employee_and_date db.attendance eid today with
  | none => Except.error (Err.businessLogicErr "No check-in record found for today")
  | some a =>
      if a.check_out_time.isSome then
        Except.error (Err.businessLogicErr "Already checked out today")
      else if !(env.withinRadius lat lon) then
        Except.error (Err.validationErr "You are not within the allowed office area")
      else if (match qr with
          | some c => !(validate_qr_code db.qrcodes qrUtcNow c).1
          | none => false) then
        Except.error (Err.validationErr "Invalid QR code")
      else
        let newQr := match qr with
          | some c => some c
          | none => a.qr_code_data
        let a' := { a with check_out_time := some now, qr_code_data := newQr }
        let att' := db.attendance.map (fun x => if x.id == a.id then a' else x)
        Except.ok (a', { db with attendance := att' })

/-- `LeaveService.is_employee_on_leave`: non-empty result of
`get_approved_leaves_in_period(check_date, check_date, employee_id)`. -/
def is_employee_on_leave (leaves : List LeaveRequest) (eid : Nat)
    (d : PyDate) : Bool :=
  (get_approved_leaves_in_period leaves d d (some eid)).length > 0

/-- `AttendanceService.mark_absent_employees`: resolves the target date
(defaulting to today), fetches `get_absent_employees_today()` once — a
query pinned to `date.today()`, independent of `target_date` — and, for
each id not on approved leave on the target date, creates an ABSENT record
dated `target_date`, counting the creations. -/
def mark_absent_employees (db : DB) (today : PyDate)
    (target : Option PyDate) : Nat × DB :=
  let target_date := target.getD today
  let ids := get_absent_employees_today db today
  ids.foldl
    (fun acc eid =>
      let count := acc.1
      let d := acc.2
      if !(is_employee_on_leave d.leaves eid target_date) then
        let a : Attendance :=
          Attendance.mk d.nextId eid target_date none none
            AttendanceStatus.ABSENT none none none
        (count + 1, { d with
          attendance := d.attendance ++ [a]
          nextId := d.nextId + 1 })
      else (count, d))
    (0, db)

/-! ## Leave service (`app/services/leave_service.py`) -/

/-- Modelled from the spec: the `.value` strings of the `LeaveType` enum
(model module not provided); the lower-case type names, used in the
insufficient-balance message. -/
def LeaveType.value : LeaveType → String
  | LeaveType.SICK => "sick"
  | LeaveType.VACATION => "vacation"
  | LeaveType.PERSONAL => "personal"
  | LeaveType.EMERGENCY => "emergency"
  | LeaveType.MATERNITY => "maternity"
  | LeaveType.PATERNITY => "paternity"

/-- `LeaveService.submit_leave_request`: date-order check, past-date check,
conflict check, balance check (against the balance of `start_date.year` and
the inclusive duration `(end - start).days + 1`), then creation in PENDING
followed by the supervisor notification. -/
def submit_leave_request (env : Env) (db : DB) (today : PyDate) (eid : Nat)
    (t : LeaveType) (s e : PyDate) (reason : String) :
    Except Err (LeaveRequest × DB) :=
  if e.dlt s then
    Except.error (Err.validationErr "Start date cannot be after end date")
  else if s.dlt today then
    Except.error (Err.validationErr "Cannot request leave for past dates")
  else if !(check_leave_conflict db.leaves eid s e none).isEmpty then
    Except.error (Err.businessLogicErr
      "Leave request conflicts with existing approved/pending leave")
  else
    let bal := get_leave_balance db.leaves eid s.year t
    let duration : Int := (e.ord : Int) - s.ord + 1
    if bal.remaining < duration then
      Except.error (Err.businessLogicErr
        ("Insufficient " ++ t.value ++ " leave balance"))
    else
      let r : LeaveRequest :=
        LeaveRequest.mk db.nextId eid t s e reason LeaveStatus.PENDING
          none none none
      let db' := { db with
        leaves := db.leaves ++ [r]
        nextId := db.nextId + 1 }
      match send_leave_request_notification env db' r.id with
      | Except.error er => Except.error er
      | Except.ok _ => Except.ok (r, db')

/-- `LeaveService.approve_leave_request`: delegates to the repository;
raises `BusinessLogicError` only when the repository returned `None`
(i.e. the id was not found); otherwise sends the approval notification and
returns what the repository returned. -/
def approve_leave_request (env : Env) (db : DB) (request_id : Nat) :
    Except Err (LeaveRequest × DB) :=
  match approve_request db.leaves request_id with
  | Except.error e => Except.error e
  | Except.ok (none, _) =>
      Except.error (Err.businessLogicErr
        "Leave request not found or already processed")
  | Except.ok (some r, ls) =>
      let db' := { db with leaves := ls }
      match send_leave_approval_notification env db' request_id with
      | Except.error e => Except.error e
      | Except.ok _ => Except.ok (r, db')

/-- `LeaveService.reject_leave_request`: same shape as approval. -/
def reject_leave_request (env : Env) (db : DB) (request_id : Nat) :
    Except Err (LeaveRequest × DB) :=
  match reject_request db.leaves request_id with
  | Except.error e => Except.error e
  | Except.ok (none, _) =>
      Except.error (Err.businessLogicErr
        "Leave request not found or already processed")
  | Except.ok (some r, ls) =>
      let db' := { db with leaves := ls }
      match send_leave_approval_notification env db' request_id with
      | Except.error e => Except.error e
      | Except.ok _ => Except.ok (r, db')

/-! ## Spec-side definitions

These follow the specification's wording, for comparison against the
definitions above (refinement claims). -/

/-- The spec's closed-interval intersection test:
`a.start <= b.end AND b.start <= a.end`. -/
def specIntersects (aS aE bS bE : Nat) : Prop :=
  aS ≤ bE ∧ bS ≤ aE

instance (aS aE bS bE : Nat) : Decidable (specIntersects aS aE bS bE) := by
  unfold specIntersects; infer_instance

/-- The repository's three-disjunct conflict test on interval endpoints
(existing `[aS, aE]` against requested `[bS, bE]`), exactly as filtered in
`check_leave_conflict`. -/
def threeDisjunct (aS aE bS bE : Nat) : Prop :=
  (aS ≤ bS ∧ bS ≤ aE) ∨ (aS ≤ bE ∧ bE ≤ aE) ∨ (bS ≤ aS ∧ aE ≤ bE)

instance (aS aE bS bE : Nat) : Decidable (threeDisjunct aS aE bS bE) := by
  unfold threeDisjunct; infer_instance

/-- The spec's unclamped balance: allowance minus the summed inclusive
durations of the employee's APPROVED requests of the type lying fully
within the calendar year. -/
def specRemaining (leaves : List LeaveRequest) (eid : Nat) (year : Nat)
    (t : LeaveType) : Int :=
  leaveAllowance t -
    ((leaves.filter (fun r =>
        r.employee_id == eid && r.status == LeaveStatus.APPROVED &&
        r.leave_type == t &&
        decide ((PyDate.mk year 1 1).ord ≤ r.start_date.ord) &&
        decide (r.end_date.ord ≤ (PyDate.mk year 12 31).ord))).map
      (fun r => r.duration_days)).sum

/-! ## Concrete fixtures used by closed evaluation theorems -/

/-- All collaborators succeed; the coordinates are inside the geofence. -/
def env0 : Env := Env.mk (fun _ _ => true) false false

/-- The in-app notification insert raises; the email send would succeed. -/
def envNotifFail : Env := Env.mk (fun _ _ => true) true false

/-- The in-app notification insert succeeds; the SMTP send raises (and is
caught inside `send_email_notification`). -/
def envEmailFail : Env := Env.mk (fun _ _ => true) false true

/-! ## C7: status classification at the default configuration -/

/-- C7: with the default configuration (work start 08:00, 20-minute grace),
a check-in time-of-day strictly before 08:00 (28800 s) classifies EARLY, one
at or before the inclusive cutoff 08:20 (30000 s) classifies ON_TIME, and
one strictly after the cutoff classifies LATE. -/
theorem attendance_status_classification (tod : Nat) :
    (tod < 28800 →
      determine_attendance_status tod = some AttendanceStatus.EARLY) ∧
    (28800 ≤ tod → tod ≤ 30000 →
      determine_attendance_status tod = some AttendanceStatus.ON_TIME) ∧
    (30000 < tod →
      determine_attendance_status tod = some AttendanceStatus.LATE) := by
  have hws : workStartHour * 3600 + workStartMinute * 60 = 28800 := by decide
  have hmk : mkTime workStartHour (workStartMinute + lateThresholdMinutes) =
      some 30000 := by decide
  refine ⟨fun h => ?_, fun h1 h2 => ?_, fun h => ?_⟩ <;>
      unfold determine_attendance_status determineAttendanceStatusCfg <;>
      rw [hws, hmk] <;> simp only
  · rw [if_pos h]
  · rw [if_neg (by omega), if_pos h2]
  · rw [if_neg (by omega), if_neg (by omega)]

/-- Witness for C7: 07:59 is EARLY, 08:00 and 08:20 are ON_TIME (inclusive
boundaries), 08:21 is LATE. -/
theorem attendance_status_classification_w :
    determine_attendance_status 28740 = some AttendanceStatus.EARLY ∧
    determine_attendance_status 28800 = some AttendanceStatus.ON_TIME ∧
    determine_attendance_status 30000 = some AttendanceStatus.ON_TIME ∧
    determine_attendance_status 30060 = some AttendanceStatus.LATE :=
  ⟨(attendance_status_classification 28740).1 (by decide),
   (attendance_status_classification 28800).2.1 (by decide) (by decide),
   (attendance_status_classification 30000).2.1 (by decide) (by decide),
   (attendance_status_classification 30060).2.2 (by decide)⟩

/-! ## C10: partiality of `determine_attendance_status` -/

/-- C10: when the configured work-start minute plus the grace minutes
reaches 60, the `time(hour, minute + grace)` construction raises
`ValueError` for every check-in at or after work start (result `none`);
when the sum stays at most 59 (and the parsed hour is a valid hour), the
classification is total. -/
theorem determine_status_partiality :
    (∀ wsHour wsMinute grace tod : Nat, 60 ≤ wsMinute + grace →
      wsHour * 3600 + wsMinute * 60 ≤ tod →
      determineAttendanceStatusCfg wsHour wsMinute grace tod = none) ∧
    (∀ wsHour wsMinute grace tod : Nat, wsHour ≤ 23 →
      wsMinute + grace ≤ 59 →
      (determineAttendanceStatusCfg wsHour wsMinute grace tod).isSome = true) := by
  constructor
  · intro wsHour wsMinute grace tod hof hge
    unfold determineAttendanceStatusCfg
    rw [if_neg (by omega)]
    have hmk : mkTime wsHour (wsMinute + grace) = none := by
      unfold mkTime
      rw [if_neg]
      simp only [Bool.and_eq_true, decide_eq_true_eq, not_and]
      omega
    rw [hmk]
  · intro wsHour wsMinute grace tod hh hm
    unfold determineAttendanceStatusCfg
    have hmk : mkTime wsHour (wsMinute + grace) =
        some (wsHour * 3600 + (wsMinute + grace) * 60) := by
      unfold mkTime
      rw [if_pos]
      simp only [Bool.and_eq_true, decide_eq_true_eq]
      omega
    rw [hmk]
    by_cases h1 : tod < wsHour * 3600 + wsMinute * 60
    · rw [if_pos h1]; rfl
    · rw [if_neg h1]
      simp only
      by_cases h2 : tod ≤ wsHour * 3600 + (wsMinute + grace) * 60
      · rw [if_pos h2]; rfl
      · rw [if_neg h2]; rfl

/-- Witness for C10: work start 08:45 with the default 20-minute grace
makes any check-in at or after 08:45 raise (here 08:45:00 exactly), while
the default configuration (08:00, 20) always classifies. -/
theorem determine_status_partiality_w :
    determineAttendanceStatusCfg 8 45 20 31500 = none ∧
    (determineAttendanceStatusCfg 8 0 20 31500).isSome = true :=
  ⟨determine_status_partiality.1 8 45 20 31500 (by decide) (by decide),
   determine_status_partiality.2 8 0 20 31500 (by decide) (by decide)⟩

/-! ## C9: QR validation -/

/-- C9: under the database's uniqueness constraint on `code`, validation
returns `True` exactly when a stored code matches, is active, and the
current time is at most `created_at` plus the 24-hour expiry window; and
validation leaves the stored table unchanged. -/
theorem validate_qr_code_spec (qrcodes : List QRCode) (utcNow : Nat)
    (c : String)
    (huniq : ∀ q1 ∈ qrcodes, ∀ q2 ∈ qrcodes, q1.code = q2.code → q1 = q2) :
    ((validate_qr_code qrcodes utcNow c).1 = true ↔
      ∃ q ∈ qrcodes, q.code = c ∧ q.is_active = true ∧
        utcNow ≤ q.created_at + qrCodeExpiryHours * 3600) ∧
    (validate_qr_code qrcodes utcNow c).2 = qrcodes := by
  constructor
  · constructor
    · intro h
      unfold validate_qr_code at h
      cases hf : qrcodes.find? (fun q => q.code == c && q.is_active) with
      | none => rw [hf] at h; simp at h
      | some q =>
          rw [hf] at h
          dsimp only at h
          have hq := List.find?_some hf
          simp only [Bool.and_eq_true, beq_iff_eq] at hq
          by_cases hexp : q.created_at + qrCodeExpiryHours * 3600 < utcNow
          · rw [if_pos hexp] at h; simp at h
          · exact ⟨q, List.mem_of_find?_eq_some hf, hq.1, hq.2, by omega⟩
    · rintro ⟨q, hq, hcode, hact, hexp⟩
      unfold validate_qr_code
      cases hf : qrcodes.find? (fun q => q.code == c && q.is_active) with
      | none =>
          exfalso
          have hnone := List.find?_eq_none.mp hf q hq
          simp only [Bool.and_eq_true, beq_iff_eq] at hnone
          exact hnone ⟨hcode, hact⟩
      | some q' =>
          have hq' := List.find?_some hf
          simp only [Bool.and_eq_true, beq_iff_eq] at hq'
          have heq : q' = q :=
            huniq q' (List.mem_of_find?_eq_some hf) q hq
              (by rw [hq'.1, hcode])
          subst heq
          dsimp only
          rw [if_neg (by omega)]
  · unfold validate_qr_code
    cases qrcodes.find? (fun q => q.code == c && q.is_active) with
    | none => rfl
    | some q =>
        dsimp only
        by_cases hexp : q.created_at + qrCodeExpiryHours * 3600 < utcNow
        · rw [if_pos hexp]
        · rw [if_neg hexp]

/-- Witness for C9: an active code created at time 0 validates at the
expiry boundary (86400 s) and the table is returned unchanged. -/
theorem validate_qr_code_spec_w :
    (validate_qr_code [QRCode.mk 1 "OFFICE_QR_HQ_1" true 0] 86400
      "OFFICE_QR_HQ_1").1 = true ∧
    (validate_qr_code [QRCode.mk 1 "OFFICE_QR_HQ_1" true 0] 86400
      "OFFICE_QR_HQ_1").2 = [QRCode.mk 1 "OFFICE_QR_HQ_1" true 0] :=
  have huniq : ∀ q1 ∈ [QRCode.mk 1 "OFFICE_QR_HQ_1" true 0],
      ∀ q2 ∈ [QRCode.mk 1 "OFFICE_QR_HQ_1" true 0],
      q1.code = q2.code → q1 = q2 := by
    intro q1 h1 q2 h2 _
    simp only [List.mem_singleton] at h1 h2
    rw [h1, h2]
  have hspec := validate_qr_code_spec [QRCode.mk 1 "OFFICE_QR_HQ_1" true 0]
    86400 "OFFICE_QR_HQ_1" huniq
  ⟨hspec.1.mpr ⟨QRCode.mk 1 "OFFICE_QR_HQ_1" true 0, by simp, rfl, rfl,
    by decide⟩, hspec.2⟩

/-! ## Helper lemmas shared by the leave-engine theorems -/

/-- For nonempty closed intervals, the repository's three-disjunct test
coincides with the spec's intersection test. -/
lemma threeDisjunct_iff_specIntersects (aS aE bS bE : Nat)
    (ha : aS ≤ aE) (hb : bS ≤ bE) :
    threeDisjunct aS aE bS bE ↔ specIntersects aS aE bS bE := by
  unfold threeDisjunct specIntersects
  omega

/-- The Boolean row predicate of `check_leave_conflict`, decoded. -/
lemma conflict_pred_iff (r : LeaveRequest) (eid : Nat) (s e : PyDate) :
    (r.employee_id == eid &&
      (r.status == LeaveStatus.PENDING || r.status == LeaveStatus.APPROVED) &&
      ((r.start_date.dle s && s.dle r.end_date) ||
       (r.start_date.dle e && e.dle r.end_date) ||
       (s.dle r.start_date && r.end_date.dle e))) = true ↔
    r.employee_id = eid ∧
      (r.status = LeaveStatus.PENDING ∨ r.status = LeaveStatus.APPROVED) ∧
      threeDisjunct r.start_date.ord r.end_date.ord s.ord e.ord := by
  unfold PyDate.dle threeDisjunct
  simp only [Bool.and_eq_true, Bool.or_eq_true, beq_iff_eq, decide_eq_true_eq,
    and_assoc, or_assoc]

/-- A notification insert either succeeds or raises the database error,
whatever the employee list. -/
lemma notify_fold_cases (env : Env) (l : List Employee) (u : Unit) :
    l.foldlM (fun _ _ =>
      match create_notification env with
      | Except.error e => Except.error e
      | Except.ok _ =>
          let _ := send_email_notification env
          Except.ok ()) u = Except.ok () ∨
    l.foldlM (fun _ _ =>
      match create_notification env with
      | Except.error e => Except.error e
      | Except.ok _ =>
          let _ := send_email_notification env
          Except.ok ()) u = Except.error Err.dbError := by
  induction l generalizing u with
  | nil => exact Or.inl rfl
  | cons a as ih =>
      unfold create_notification
      cases hn : env.notifInsertFails with
      | true =>
          right
          simp only [List.foldlM, hn]
          rfl
      | false =>
          have := ih ()
          unfold create_notification at this
          simpa [List.foldlM, hn] using this

/-- `send_leave_request_notification` never raises a `BusinessLogicError`:
it returns unit or propagates the database error. -/
lemma send_leave_request_notification_cases (env : Env) (db : DB)
    (rid : Nat) :
    send_leave_request_notification env db rid = Except.ok () ∨
    send_leave_request_notification env db rid =
      Except.error Err.dbError := by
  unfold send_leave_request_notification
  cases db.leaves.find? (fun r => r.id == rid) with
  | none => exact Or.inl rfl
  | some r =>
      dsimp only
      cases db.employees.find? (fun e => e.id == r.employee_id) with
      | none => exact Or.inl rfl
      | some _ =>
          dsimp only
          exact notify_fold_cases env (get_supervisors db.employees) ()

/-- The insufficient-balance message never equals the conflict message. -/
lemma balance_msg_ne (t : LeaveType) :
    ("Insufficient " ++ t.value ++ " leave balance") ≠
      "Leave request conflicts with existing approved/pending leave" := by
  cases t <;> decide

/-- Membership in the conflict query, decoded to the row conditions. -/
lemma mem_check_leave_conflict (r : LeaveRequest) (leaves : List LeaveRequest)
    (eid : Nat) (s e : PyDate) :
    r ∈ check_leave_conflict leaves eid s e none ↔
      r ∈ leaves ∧ r.employee_id = eid ∧
      (r.status = LeaveStatus.PENDING ∨ r.status = LeaveStatus.APPROVED) ∧
      threeDisjunct r.start_date.ord r.end_date.ord s.ord e.ord := by
  unfold check_leave_conflict
  dsimp only
  rw [List.mem_filter, conflict_pred_iff]

/-! ## C6: overlap rejection and the intersection test -/

/-- C6: for nonempty closed intervals the repository's three-disjunct
conflict predicate coincides with the spec's intersection test, and — once
the date validations pass and the stored requests are well-formed —
submission fails with the conflict `BusinessLogicError` exactly when some
PENDING or APPROVED request of the employee intersects the requested
range. -/
theorem conflict_predicate_equiv_intersection :
    (∀ aS aE bS bE : Nat, aS ≤ aE → bS ≤ bE →
      (threeDisjunct aS aE bS bE ↔ specIntersects aS aE bS bE)) ∧
    (∀ (env : Env) (db : DB) (today : PyDate) (eid : Nat) (t : LeaveType)
        (s e : PyDate) (reason : String),
      s.ord ≤ e.ord → today.ord ≤ s.ord →
      (∀ r ∈ db.leaves, r.start_date.ord ≤ r.end_date.ord) →
      (submit_leave_request env db today eid t s e reason =
        Except.error (Err.businessLogicErr
          "Leave request conflicts with existing approved/pending leave") ↔
        ∃ r ∈ db.leaves, r.employee_id = eid ∧
          (r.status = LeaveStatus.PENDING ∨ r.status = LeaveStatus.APPROVED) ∧
          specIntersects r.start_date.ord r.end_date.ord s.ord e.ord)) := by
  constructor
  · exact fun aS aE bS bE ha hb =>
      threeDisjunct_iff_specIntersects aS aE bS bE ha hb
  · intro env db today eid t s e reason hse ht hwf
    have h1 : PyDate.dlt e s = false := by
      simp only [PyDate.dlt, decide_eq_false_iff_not, not_lt]
      exact hse
    have h2 : PyDate.dlt s today = false := by
      simp only [PyDate.dlt, decide_eq_false_iff_not, not_lt]
      exact ht
    unfold submit_leave_request
    rw [h1, h2]
    simp only [Bool.false_eq_true, if_false]
    cases hc : check_leave_conflict db.leaves eid s e none with
    | nil =>
        simp only [List.isEmpty_nil, Bool.not_true, Bool.false_eq_true,
          if_false]
        constructor
        · intro habs
          exfalso
          by_cases hb : (get_leave_balance db.leaves eid s.year t).remaining <
              (e.ord : Int) - s.ord + 1
          · rw [if_pos hb] at habs
            have := Except.error.inj habs
            have := Err.businessLogicErr.inj this
            exact balance_msg_ne t this
          · rw [if_neg hb] at habs
            rcases send_leave_request_notification_cases env
              { db with
                leaves := db.leaves ++
                  [LeaveRequest.mk db.nextId eid t s e reason
                    LeaveStatus.PENDING none none none]
                nextId := db.nextId + 1 }
              (LeaveRequest.mk db.nextId eid t s e reason
                LeaveStatus.PENDING none none none).id with hok | herr
            · rw [hok] at habs; exact Except.noConfusion habs
            · rw [herr] at habs
              have := Except.error.inj habs
              exact Err.noConfusion this
        · rintro ⟨r, hr, hrE, hrS, hrI⟩
          exfalso
          have hmem : r ∈ check_leave_conflict db.leaves eid s e none :=
            (mem_check_leave_conflict r db.leaves eid s e).mpr
              ⟨hr, hrE, hrS,
               (threeDisjunct_iff_specIntersects r.start_date.ord
                 r.end_date.ord s.ord e.ord (hwf r hr) hse).mpr hrI⟩
          rw [hc] at hmem
          exact List.not_mem_nil r hmem
    | cons head tail =>
        simp only [List.isEmpty_cons, Bool.not_false, if_true]
        constructor
        · intro _
          have hmem : head ∈ check_leave_conflict db.leaves eid s e none := by
            rw [hc]; exact List.mem_cons_self head tail
          rcases (mem_check_leave_conflict head db.leaves eid s e).mp hmem
            with ⟨hr, hrE, hrS, hrD⟩
          exact ⟨head, hr, hrE, hrS,
            (threeDisjunct_iff_specIntersects head.start_date.ord
              head.end_date.ord s.ord e.ord (hwf head hr) hse).mp hrD⟩
        · intro _
          trivial

/-- With a healthy notification insert, the supervisor loop succeeds. -/
lemma notify_fold_ok (env : Env) (h : env.notifInsertFails = false)
    (l : List Employee) (u : Unit) :
    l.foldlM (fun _ _ =>
      match create_notification env with
      | Except.error e => Except.error e
      | Except.ok _ =>
          let _ := send_email_notification env
          Except.ok ()) u = Except.ok () := by
  induction l generalizing u with
  | nil => rfl
  | cons a as ih => simpa [List.foldlM, create_notification, h] using ih ()

/-- With a healthy notification insert, `send_leave_request_notification`
returns unit whatever the database holds. -/
lemma send_leave_request_notification_ok (env : Env) (db : DB) (rid : Nat)
    (h : env.notifInsertFails = false) :
    send_leave_request_notification env db rid = Except.ok () := by
  unfold send_leave_request_notification
  cases db.leaves.find? (fun r => r.id == rid) with
  | none => rfl
  | some r =>
      dsimp only
      cases db.employees.find? (fun e => e.id == r.employee_id) with
      | none => rfl
      | some _ =>
          dsimp only
          exact notify_fold_ok env h (get_supervisors db.employees) ()

/-- With a healthy notification insert, the late-arrival dispatch returns
unit: only the email send can fail there, and it is caught. -/
lemma send_late_arrival_ok (env : Env) (db : DB) (eid : Nat)
    (h : env.notifInsertFails = false) :
    send_late_arrival_notification env db eid = Except.ok () := by
  unfold send_late_arrival_notification
  cases db.employees.find? (fun e => e.id == eid) with
  | none => rfl
  | some _ =>
      dsimp only
      simp [create_notification, h]

/-- A time-of-day strictly past the 08:20 cutoff classifies LATE at the
default configuration. -/
lemma determine_late (tod : Nat) (h : 30000 < tod) :
    determine_attendance_status tod = some AttendanceStatus.LATE := by
  have hmk : mkTime workStartHour (workStartMinute + lateThresholdMinutes) =
      some 30000 := by decide
  have hws : workStartHour * 3600 + workStartMinute * 60 = 28800 := by decide
  unfold determine_attendance_status determineAttendanceStatusCfg
  rw [hws, hmk]
  simp only
  rw [if_neg (by omega), if_neg (by omega)]

/-- Folding `+ duration_days` equals adding the summed durations. -/
lemma foldl_add_duration (l : List LeaveRequest) (i : Int) :
    l.foldl (fun acc r => acc + r.duration_days) i =
      i + (l.map (fun r => r.duration_days)).sum := by
  induction l generalizing i with
  | nil => simp
  | cons a as ih =>
      rw [List.foldl_cons, ih, List.map_cons, List.sum_cons]
      ring

/-- The double filter of `get_leave_balance` equals the single combined
filter used in the spec-side balance. -/
lemma balance_filter_eq (leaves : List LeaveRequest) (eid : Nat)
    (year : Nat) (t : LeaveType) :
    ((leaves.filter (fun r =>
        r.employee_id == eid && r.status == LeaveStatus.APPROVED &&
        decide ((PyDate.mk year 1 1).ord ≤ r.start_date.ord) &&
        decide (r.end_date.ord ≤ (PyDate.mk year 12 31).ord))).filter
      (fun r => r.leave_type == t)) =
    leaves.filter (fun r =>
      r.employee_id == eid && r.status == LeaveStatus.APPROVED &&
      r.leave_type == t &&
      decide ((PyDate.mk year 1 1).ord ≤ r.start_date.ord) &&
      decide (r.end_date.ord ≤ (PyDate.mk year 12 31).ord)) := by
  rw [List.filter_filter]
  apply List.filter_congr
  intro r _
  cases r.employee_id == eid <;>
    cases r.status == LeaveStatus.APPROVED <;>
    cases r.leave_type == t <;>
    cases decide ((PyDate.mk year 1 1).ord ≤ r.start_date.ord) <;>
    cases decide (r.end_date.ord ≤ (PyDate.mk year 12 31).ord) <;> rfl

/-- The `taken` entry of the balance dict is the spec's summed duration. -/
lemma taken_eq_spec (leaves : List LeaveRequest) (eid : Nat) (year : Nat)
    (t : LeaveType) :
    (get_leave_balance leaves eid year t).taken =
      leaveAllowance t - specRemaining leaves eid year t := by
  unfold get_leave_balance specRemaining
  dsimp only
  rw [foldl_add_duration, balance_filter_eq]
  ring

/-- The `remaining` entry clamps the spec's balance at zero. -/
lemma remaining_eq_clamped_spec (leaves : List LeaveRequest) (eid : Nat)
    (year : Nat) (t : LeaveType) :
    (get_leave_balance leaves eid year t).remaining =
      max 0 (specRemaining leaves eid year t) := by
  have h := taken_eq_spec leaves eid year t
  unfold get_leave_balance at h ⊢
  dsimp only at h ⊢
  rw [h]
  ring_nf

/-! ## C5: leave balance and the insufficient-balance check -/

/-- Fixture: employee 1 holds 22 approved vacation days inside 2026 (11 in
January, 11 in February). -/
def c5leaves : List LeaveRequest :=
  [LeaveRequest.mk 1 1 LeaveType.VACATION (PyDate.mk 2026 1 5)
     (PyDate.mk 2026 1 15) "trip" LeaveStatus.APPROVED (some 2) (some 0) none,
   LeaveRequest.mk 2 1 LeaveType.VACATION (PyDate.mk 2026 2 1)
     (PyDate.mk 2026 2 11) "trip" LeaveStatus.APPROVED (some 2) (some 0) none]

/-- Fixture: a database holding only `c5leaves`. -/
def c5db : DB := DB.mk [] [] c5leaves [] 10

/-- Counterexample to C5: with 22 approved vacation days against the
21-day allowance, the stored balance reports remaining 0, not the claimed
allowance-minus-taken value −1 (the code clamps with `max(0, ...)`). -/
theorem leave_balance_clamp_counterexample :
    (get_leave_balance c5leaves 1 2026 LeaveType.VACATION).remaining = 0 ∧
    specRemaining c5leaves 1 2026 LeaveType.VACATION = -1 := by decide

/-- C5 (amended): the reported remaining balance is the spec's
allowance-minus-taken value clamped at zero; and since a validated request
spans at least one day, submission fails with the insufficient-balance
error exactly when the spec's unclamped balance is below the requested
inclusive duration — so a request for exactly the full remaining balance
succeeds past the balance check. -/
theorem submit_balance_check_spec (env : Env) (db : DB) (today : PyDate)
    (eid : Nat) (t : LeaveType) (s e : PyDate) (reason : String)
    (hse : s.ord ≤ e.ord) (ht : today.ord ≤ s.ord)
    (hnc : check_leave_conflict db.leaves eid s e none = []) :
    ((submit_leave_request env db today eid t s e reason =
      Except.error (Err.businessLogicErr
        ("Insufficient " ++ t.value ++ " leave balance"))) ↔
      specRemaining db.leaves eid s.year t < (e.ord : Int) - s.ord + 1) ∧
    (get_leave_balance db.leaves eid s.year t).remaining =
      max 0 (specRemaining db.leaves eid s.year t) := by
  refine ⟨?_, remaining_eq_clamped_spec db.leaves eid s.year t⟩
  have h1 : PyDate.dlt e s = false := by
    simp only [PyDate.dlt, decide_eq_false_iff_not, not_lt]
    exact hse
  have h2 : PyDate.dlt s today = false := by
    simp only [PyDate.dlt, decide_eq_false_iff_not, not_lt]
    exact ht
  have hrem := remaining_eq_clamped_spec db.leaves eid s.year t
  have hd : (0 : Int) < (e.ord : Int) - s.ord + 1 := by
    have : (s.ord : Int) ≤ (e.ord : Int) := by exact_mod_cast hse
    omega
  unfold submit_leave_request
  rw [h1, h2, hnc]
  simp only [Bool.false_eq_true, if_false, List.isEmpty_nil, Bool.not_true]
  constructor
  · intro hres
    by_cases hb : (get_leave_balance db.leaves eid s.year t).remaining <
        (e.ord : Int) - s.ord + 1
    · rw [hrem] at hb
      exact lt_of_le_of_lt (le_max_right 0 _) hb
    · exfalso
      rw [if_neg hb] at hres
      rcases send_leave_request_notification_cases env
        { db with
          leaves := db.leaves ++
            [LeaveRequest.mk db.nextId eid t s e reason
              LeaveStatus.PENDING none none none]
          nextId := db.nextId + 1 }
        (LeaveRequest.mk db.nextId eid t s e reason
          LeaveStatus.PENDING none none none).id with hok | herr
      · rw [hok] at hres; exact Except.noConfusion hres
      · rw [herr] at hres
        exact Err.noConfusion (Except.error.inj hres)
  · intro hspec
    have hb : (get_leave_balance db.leaves eid s.year t).remaining <
        (e.ord : Int) - s.ord + 1 := by
      rw [hrem, max_lt_iff]
      exact ⟨hd, hspec⟩
    rw [if_pos hb]

/-- Witness for C5 (amended): against the 22-of-21 vacation state, a
further 3-day vacation request fails with the insufficient-balance error,
and the stored balance equals the clamped spec balance. -/
theorem submit_balance_check_spec_w :
    (submit_leave_request env0 c5db (PyDate.mk 2026 3 1) 1 LeaveType.VACATION
        (PyDate.mk 2026 3 10) (PyDate.mk 2026 3 12) "more" =
      Except.error (Err.businessLogicErr
        ("Insufficient " ++ (LeaveType.VACATION).value ++ " leave balance"))) ∧
    (get_leave_balance c5db.leaves 1 2026 LeaveType.VACATION).remaining =
      max 0 (specRemaining c5db.leaves 1 2026 LeaveType.VACATION) :=
  have h := submit_balance_check_spec env0 c5db (PyDate.mk 2026 3 1) 1
    LeaveType.VACATION (PyDate.mk 2026 3 10) (PyDate.mk 2026 3 12) "more"
    (by decide) (by decide) (by decide)
  ⟨h.1.mpr (by decide), h.2⟩

/-- Fixture: employee 1 holds a PENDING request over [2026-03-05,
2026-03-08]. -/
def c6db : DB :=
  DB.mk [] []
    [LeaveRequest.mk 5 1 LeaveType.VACATION (PyDate.mk 2026 3 5)
      (PyDate.mk 2026 3 8) "t" LeaveStatus.PENDING none none none] [] 20

/-- Witness for C6: the interval equivalence at [5,8] vs [7,9], and the
conflict iff for a request over [2026-03-07, 2026-03-09] against the
pending [2026-03-05, 2026-03-08]. -/
theorem conflict_predicate_equiv_intersection_w :
    (threeDisjunct 5 8 7 9 ↔ specIntersects 5 8 7 9) ∧
    (submit_leave_request env0 c6db (PyDate.mk 2026 3 1) 1 LeaveType.VACATION
        (PyDate.mk 2026 3 7) (PyDate.mk 2026 3 9) "t2" =
      Except.error (Err.businessLogicErr
        "Leave request conflicts with existing approved/pending leave") ↔
      ∃ r ∈ c6db.leaves, r.employee_id = 1 ∧
        (r.status = LeaveStatus.PENDING ∨ r.status = LeaveStatus.APPROVED) ∧
        specIntersects r.start_date.ord r.end_date.ord
          (PyDate.mk 2026 3 7).ord (PyDate.mk 2026 3 9).ord) :=
  ⟨conflict_predicate_equiv_intersection.1 5 8 7 9 (by decide) (by decide),
   conflict_predicate_equiv_intersection.2 env0 c6db (PyDate.mk 2026 3 1) 1
     LeaveType.VACATION (PyDate.mk 2026 3 7) (PyDate.mk 2026 3 9) "t2"
     (by decide) (by decide) (by decide)⟩

/-! ## C8: submission validation order -/

/-- C8: the submission checks fire in order — date order first, then the
past-date rule, then the conflict check, then the balance check — the first
violated rule winning with its error kind; when every check passes (and the
notification insert is healthy), the request is created in PENDING and
appended to the store. -/
theorem submit_validation_order (env : Env) (db : DB) (today : PyDate)
    (eid : Nat) (t : LeaveType) (s e : PyDate) (reason : String) :
    (e.ord < s.ord →
      submit_leave_request env db today eid t s e reason =
        Except.error (Err.validationErr "Start date cannot be after end date")) ∧
    (s.ord ≤ e.ord → s.ord < today.ord →
      submit_leave_request env db today eid t s e reason =
        Except.error (Err.validationErr "Cannot request leave for past dates")) ∧
    (s.ord ≤ e.ord → today.ord ≤ s.ord →
      check_leave_conflict db.leaves eid s e none ≠ [] →
      submit_leave_request env db today eid t s e reason =
        Except.error (Err.businessLogicErr
          "Leave request conflicts with existing approved/pending leave")) ∧
    (s.ord ≤ e.ord → today.ord ≤ s.ord →
      check_leave_conflict db.leaves eid s e none = [] →
      (get_leave_balance db.leaves eid s.year t).remaining <
        (e.ord : Int) - s.ord + 1 →
      submit_leave_request env db today eid t s e reason =
        Except.error (Err.businessLogicErr
          ("Insufficient " ++ t.value ++ " leave balance"))) ∧
    (s.ord ≤ e.ord → today.ord ≤ s.ord →
      check_leave_conflict db.leaves eid s e none = [] →
      ¬((get_leave_balance db.leaves eid s.year t).remaining <
        (e.ord : Int) - s.ord + 1) →
      env.notifInsertFails = false →
      submit_leave_request env db today eid t s e reason =
        Except.ok (LeaveRequest.mk db.nextId eid t s e reason
            LeaveStatus.PENDING none none none,
          { db with
            leaves := db.leaves ++ [LeaveRequest.mk db.nextId eid t s e
              reason LeaveStatus.PENDING none none none],
            nextId := db.nextId + 1 })) := by
  refine ⟨fun hlt => ?_, fun hse hpast => ?_, fun hse ht hne => ?_,
    fun hse ht hnc hb => ?_, fun hse ht hnc hb hn => ?_⟩
  · have h1 : PyDate.dlt e s = true := by
      simp only [PyDate.dlt, decide_eq_true_eq]
      exact hlt
    unfold submit_leave_request
    rw [h1, if_pos rfl]
  · have h1 : PyDate.dlt e s = false := by
      simp only [PyDate.dlt, decide_eq_false_iff_not, not_lt]
      exact hse
    have h2 : PyDate.dlt s today = true := by
      simp only [PyDate.dlt, decide_eq_true_eq]
      exact hpast
    unfold submit_leave_request
    rw [h1, h2]
    simp only [Bool.false_eq_true, if_false, if_true]
  · have h1 : PyDate.dlt e s = false := by
      simp only [PyDate.dlt, decide_eq_false_iff_not, not_lt]
      exact hse
    have h2 : PyDate.dlt s today = false := by
      simp only [PyDate.dlt, decide_eq_false_iff_not, not_lt]
      exact ht
    have h3 : (check_leave_conflict db.leaves eid s e none).isEmpty = false := by
      cases hl : check_leave_conflict db.leaves eid s e none with
      | nil => exact absurd hl hne
      | cons a l => rfl
    unfold submit_leave_request
    rw [h1, h2, h3]
    simp only [Bool.false_eq_true, if_false, Bool.not_false, if_true]
  · have h1 : PyDate.dlt e s = false := by
      simp only [PyDate.dlt, decide_eq_false_iff_not, not_lt]
      exact hse
    have h2 : PyDate.dlt s today = false := by
      simp only [PyDate.dlt, decide_eq_false_iff_not, not_lt]
      exact ht
    unfold submit_leave_request
    rw [h1, h2, hnc]
    simp only [Bool.false_eq_true, if_false, List.isEmpty_nil, Bool.not_true]
    rw [if_pos hb]
  · have h1 : PyDate.dlt e s = false := by
      simp only [PyDate.dlt, decide_eq_false_iff_not, not_lt]
      exact hse
    have h2 : PyDate.dlt s today = false := by
      simp only [PyDate.dlt, decide_eq_false_iff_not, not_lt]
      exact ht
    unfold submit_leave_request
    rw [h1, h2, hnc]
    simp only [Bool.false_eq_true, if_false, List.isEmpty_nil, Bool.not_true]
    rw [if_neg hb]
    rw [send_leave_request_notification_ok env _ _ hn]

/-- Fixture: an entirely empty store. -/
def db00 : DB := DB.mk [] [] [] [] 0

/-- Witness for C8: a reversed range fails with the date-order
`ValidationError`, and a valid 2-day sick request on the empty store is
created in PENDING. -/
theorem submit_validation_order_w :
    (submit_leave_request env0 db00 (PyDate.mk 2026 3 1) 1 LeaveType.SICK
        (PyDate.mk 2026 3 10) (PyDate.mk 2026 3 9) "r" =
      Except.error (Err.validationErr "Start date cannot be after end date")) ∧
    (submit_leave_request env0 db00 (PyDate.mk 2026 3 1) 1 LeaveType.SICK
        (PyDate.mk 2026 3 10) (PyDate.mk 2026 3 11) "r" =
      Except.ok (LeaveRequest.mk 0 1 LeaveType.SICK (PyDate.mk 2026 3 10)
          (PyDate.mk 2026 3 11) "r" LeaveStatus.PENDING none none none,
        { db00 with
          leaves := [LeaveRequest.mk 0 1 LeaveType.SICK (PyDate.mk 2026 3 10)
            (PyDate.mk 2026 3 11) "r" LeaveStatus.PENDING none none none],
          nextId := 1 })) :=
  ⟨(submit_validation_order env0 db00 (PyDate.mk 2026 3 1) 1 LeaveType.SICK
      (PyDate.mk 2026 3 10) (PyDate.mk 2026 3 9) "r").1 (by decide),
   (submit_validation_order env0 db00 (PyDate.mk 2026 3 1) 1 LeaveType.SICK
      (PyDate.mk 2026 3 10) (PyDate.mk 2026 3 11) "r").2.2.2.2
     (by decide) (by decide) (by decide) (by decide) rfl⟩

deriving instance DecidableEq for Except

/-! ## C1: approval/rejection state machine -/

/-- Fixture: request 7 is already APPROVED, request 8 is PENDING, both of
employee 1. -/
def c1db : DB :=
  DB.mk [Employee.mk 1 EmployeeRole.EMPLOYEE true] []
    [LeaveRequest.mk 7 1 LeaveType.VACATION (PyDate.mk 2026 4 1)
       (PyDate.mk 2026 4 3) "trip" LeaveStatus.APPROVED (some 2) (some 0) none,
     LeaveRequest.mk 8 1 LeaveType.SICK (PyDate.mk 2026 5 1)
       (PyDate.mk 2026 5 2) "flu" LeaveStatus.PENDING none none none] [] 100

/-- C1 evaluated on the code: approving or rejecting the already-APPROVED
request 7 raises nothing and returns the request unchanged (`approve_request`
hands any non-PENDING row back to the service, which only errors on `None`);
approving or rejecting the PENDING request 8 hits the unbound
`datetime.utcnow()` and raises `NameError` instead of transitioning; only a
missing id produces the claimed `BusinessLogicError`. -/
theorem approve_reject_state_machine_bug :
    approve_leave_request env0 c1db 7 =
      Except.ok (LeaveRequest.mk 7 1 LeaveType.VACATION (PyDate.mk 2026 4 1)
        (PyDate.mk 2026 4 3) "trip" LeaveStatus.APPROVED (some 2) (some 0)
        none, c1db) ∧
    reject_leave_request env0 c1db 7 =
      Except.ok (LeaveRequest.mk 7 1 LeaveType.VACATION (PyDate.mk 2026 4 1)
        (PyDate.mk 2026 4 3) "trip" LeaveStatus.APPROVED (some 2) (some 0)
        none, c1db) ∧
    approve_leave_request env0 c1db 8 = Except.error Err.nameError ∧
    reject_leave_request env0 c1db 8 = Except.error Err.nameError ∧
    approve_leave_request env0 c1db 99 =
      Except.error (Err.businessLogicErr
        "Leave request not found or already processed") := by decide

/-! ## C2: the absence sweep against a non-today target date -/

/-- Fixture: one active employee and no records at all. -/
def c2db : DB := DB.mk [Employee.mk 1 EmployeeRole.EMPLOYEE true] [] [] [] 50

/-- First sweep for target 2026-03-09 run on 2026-03-10. -/
def c2run1 : Nat × DB :=
  mark_absent_employees c2db (PyDate.mk 2026 3 10) (some (PyDate.mk 2026 3 9))

/-- Second identical sweep, from the state the first one left. -/
def c2run2 : Nat × DB :=
  mark_absent_employees c2run1.2 (PyDate.mk 2026 3 10)
    (some (PyDate.mk 2026 3 9))

/-- First sweep whose target date is the running day itself. -/
def c2today1 : Nat × DB :=
  mark_absent_employees c2db (PyDate.mk 2026 3 10) (some (PyDate.mk 2026 3 10))

/-- Second sweep for the running day, from the state the first left. -/
def c2today2 : Nat × DB :=
  mark_absent_employees c2today1.2 (PyDate.mk 2026 3 10)
    (some (PyDate.mk 2026 3 10))

/-- C2 evaluated on the code: because `get_absent_employees_today` filters
attendance by the running day rather than the target date, sweeping
2026-03-09 twice on 2026-03-10 creates a record both times, leaving the
employee with two ABSENT records for 2026-03-09; only when the target date
is the running day itself is the sweep idempotent. -/
theorem mark_absent_duplicate_records :
    c2run1.1 = 1 ∧ c2run2.1 = 1 ∧
    ((c2run2.2).attendance.filter (fun a =>
      a.employee_id == 1 && a.date == PyDate.mk 2026 3 9)).length = 2 ∧
    c2today1.1 = 1 ∧ c2today2.1 = 0 := by decide

/-! ## C3: survival of check-in on notification failure -/

/-- Fixture: one active employee, id 3, and nothing else. -/
def c3db : DB := DB.mk [Employee.mk 3 EmployeeRole.EMPLOYEE true] [] [] [] 300

/-- Counterexample to C3: a LATE check-in (09:00) under a failing
notification insert propagates the database error instead of returning the
attendance record — `check_in` wraps no handler around
`send_late_arrival_notification`, whose `create_notification` commit can
raise. -/
theorem check_in_notification_failure_propagates :
    check_in envNotifFail c3db (PyDate.mk 2026 3 10) 32400 0 3 0 0 none =
      Except.error Err.dbError := by decide

/-- C3 (amended): with a healthy notification insert, `check_in` never
propagates the notification database error — in particular an SMTP failure
is caught inside `send_email_notification` — and a guarded LATE check-in
returns the created record even while the email send is failing. -/
theorem check_in_email_failure_swallowed (env : Env) (db : DB)
    (today : PyDate) (now qrUtcNow : Nat) (eid : Nat) (lat lon : Int)
    (qr : Option String) (h : env.notifInsertFails = false) :
    (check_in env db today now qrUtcNow eid lat lon qr ≠
      Except.error Err.dbError) ∧
    (get_by_employee_and_date db.attendance eid today = none →
      env.withinRadius lat lon = true → qr = none → 30000 < now % 86400 →
      check_in env db today now qrUtcNow eid lat lon qr =
        Except.ok (Attendance.mk db.nextId eid today (some now) none
            AttendanceStatus.LATE (some lat) (some lon) none,
          { db with
            attendance := db.attendance ++ [Attendance.mk db.nextId eid today
              (some now) none AttendanceStatus.LATE (some lat) (some lon)
              none],
            nextId := db.nextId + 1 })) := by
  constructor
  · intro habs
    unfold check_in at habs
    simp only [send_late_arrival_ok, h] at habs
    repeat' split at habs
    all_goals simp at habs
  · intro hnone hloc hqr hlate
    have hd := determine_late (now % 86400) hlate
    subst hqr
    unfold check_in
    rw [hnone]
    dsimp only
    rw [hloc]
    simp only [Bool.not_true, Bool.false_eq_true, if_false]
    rw [hd]
    dsimp only
    simp only [beq_self_eq_true, if_true]
    rw [send_late_arrival_ok env _ eid h]

/-- Witness for C3 (amended): employee 3 checks in at 09:00 under a failing
SMTP server; the record is created and returned, the email failure is
swallowed. -/
theorem check_in_email_failure_swallowed_w :
    check_in envEmailFail c3db (PyDate.mk 2026 3 10) 32400 0 3 0 0 none =
      Except.ok (Attendance.mk 300 3 (PyDate.mk 2026 3 10) (some 32400) none
          AttendanceStatus.LATE (some 0) (some 0) none,
        DB.mk [Employee.mk 3 EmployeeRole.EMPLOYEE true]
          [Attendance.mk 300 3 (PyDate.mk 2026 3 10) (some 32400) none
            AttendanceStatus.LATE (some 0) (some 0) none] [] [] 301) :=
  (check_in_email_failure_swallowed envEmailFail c3db (PyDate.mk 2026 3 10)
    32400 0 3 0 0 none rfl).2 rfl rfl rfl (by decide)

/-! ## C4: duplicate check-in and check-out guards -/

/-- Fixture: one active employee, id 2, and nothing else. -/
def c4db : DB := DB.mk [Employee.mk 2 EmployeeRole.EMPLOYEE true] [] [] [] 200

/-- Counterexample to C4: after the absence sweep leaves an ABSENT record
with no check-in timestamp, `check_out` succeeds — the guard asks only for
the existence of today's record (`if not attendance`), not for a recorded
check-in — so "check-out without a prior successful check-in raises
BusinessLogicError" fails on this reachable state. -/
theorem check_out_without_check_in_succeeds :
    check_out env0 (mark_absent_employees c4db (PyDate.mk 2026 3 10) none).2
        (PyDate.mk 2026 3 10) 61200 0 2 0 0 none =
      Except.ok (Attendance.mk 200 2 (PyDate.mk 2026 3 10) none (some 61200)
          AttendanceStatus.ABSENT none none none,
        DB.mk [Employee.mk 2 EmployeeRole.EMPLOYEE true]
          [Attendance.mk 200 2 (PyDate.mk 2026 3 10) none (some 61200)
            AttendanceStatus.ABSENT none none none] [] [] 201) := by decide

/-- C4 (amended): `check_in` raises the duplicate error exactly when
today's record already carries a check-in timestamp; `check_out` raises
when no record at all exists for today, or when a check-out timestamp is
already recorded — a record without a check-in does not block
check-out. -/
theorem check_out_error_conditions (env : Env) (db : DB) (today : PyDate)
    (now qrUtcNow : Nat) (eid : Nat) (lat lon : Int) (qr : Option String) :
    (get_by_employee_and_date db.attendance eid today = none →
      check_out env db today now qrUtcNow eid lat lon qr =
        Except.error (Err.businessLogicErr
          "No check-in record found for today")) ∧
    (∀ a, get_by_employee_and_date db.attendance eid today = some a →
      a.check_out_time.isSome = true →
      check_out env db today now qrUtcNow eid lat lon qr =
        Except.error (Err.businessLogicErr "Already checked out today")) ∧
    (∀ a, get_by_employee_and_date db.attendance eid today = some a →
      a.check_in_time.isSome = true →
      check_in env db today now qrUtcNow eid lat lon qr =
        Except.error (Err.businessLogicErr "Already checked in today")) := by
  refine ⟨fun hnone => ?_, fun a hsome hco => ?_, fun a hsome hci => ?_⟩
  · unfold check_out
    rw [hnone]
  · unfold check_out
    rw [hsome]
    dsimp only
    rw [hco, if_pos rfl]
  · unfold check_in
    rw [hsome]
    dsimp only
    rw [hci, if_pos rfl]

/-- Witness for C4 (amended): on the empty store, checking out fails with
the missing-record error; after a successful 08:10 check-in, a second
check-in the same day fails with the duplicate error. -/
theorem check_out_error_conditions_w :
    (check_out env0 db00 (PyDate.mk 2026 3 10) 61200 0 7 0 0 none =
      Except.error (Err.businessLogicErr
        "No check-in record found for today")) ∧
    (check_in env0
        (DB.mk [] [Attendance.mk 9 7 (PyDate.mk 2026 3 10) (some 29400) none
          AttendanceStatus.ON_TIME (some 0) (some 0) none] [] [] 10)
        (PyDate.mk 2026 3 10) 29700 0 7 0 0 none =
      Except.error (Err.businessLogicErr "Already checked in today")) :=
  ⟨(check_out_error_conditions env0 db00 (PyDate.mk 2026 3 10) 61200 0 7 0 0
      none).1 rfl,
   (check_out_error_conditions env0
      (DB.mk [] [Attendance.mk 9 7 (PyDate.mk 2026 3 10) (some 29400) none
        AttendanceStatus.ON_TIME (some 0) (some 0) none] [] [] 10)
      (PyDate.mk 2026 3 10) 29700 0 7 0 0 none).2.2
     (Attendance.mk 9 7 (PyDate.mk 2026 3 10) (some 29400) none
       AttendanceStatus.ON_TIME (some 0) (some 0) none) (by decide) rfl⟩
